import Mathlib

/-!
Verification of the generic Kubernetes dynamic-resource access layer
(package `k8s` of the repository): connection-config resolution, the
kind-to-GVR resolution cache, the create-or-update protocol for
unstructured manifests, rollout restart, and multi-container log
aggregation.

The Go code is shallowly embedded: the unstructured document model is a
recursive key-value tree, cluster and library calls (dynamic client,
typed namespace client, discovery, clientcmd, file system) are supplied
as explicit environment records, and each operation returns its result
together with the list of cluster calls it issued, in order.
-/

namespace K8s

/-- Unstructured value tree: the `map[string]interface\x7b\x7d` model that
`encoding/json` decodes manifests into. -/
inductive Val where
  | null
  | str (s : String)
  | num (n : Int)
  | boolean (b : Bool)
  | arr (elems : List Val)
  | obj (fields : List (String × Val))

/-- An unstructured object: the top-level field map of
`unstructured.Unstructured.Object`. -/
abbrev Doc := List (String × Val)

/-- Map lookup (`m[k]`) on a field list. -/
def lookupField : Doc → String → Option Val
  | [], _ => none
  | (k, v) :: rest, key => if k = key then some v else lookupField rest key

/-- Map assignment (`m[k] = v`): replaces the binding if present, else appends. -/
def setField : Doc → String → Val → Doc
  | [], key, v => [(key, v)]
  | (k, w) :: rest, key, v =>
    if k = key then (key, v) :: rest else (k, w) :: setField rest key v

/-- Map deletion (`delete(m, k)`). -/
def removeField : Doc → String → Doc
  | [], _ => []
  | (k, w) :: rest, key =>
    if k = key then removeField rest key else (k, w) :: removeField rest key

/-- Nested field access along a path, as `unstructured.NestedFieldNoCopy`:
descends through object maps, `none` when a segment is missing or an
intermediate value is not a map. -/
def getNestedVal : Doc → List String → Option Val
  | _, [] => none
  | d, [k] => lookupField d k
  | d, k :: rest =>
    match lookupField d k with
    | some (.obj d') => getNestedVal d' rest
    | _ => none

/-- Nested string access, as `unstructured.NestedString` used by
`GetName`/`GetNamespace`/`GetKind`: empty string on missing field or
type mismatch. -/
def getNestedString (d : Doc) (path : List String) : String :=
  match getNestedVal d path with
  | some (.str s) => s
  | _ => ""

/-- Nested map access, as `unstructured.NestedMap`: `some` exactly when the
path resolves to a map value (missing field or type mismatch give `none`,
matching the ignored-error use `spec, found, _ := NestedMap(...)` in
`RolloutRestart`). -/
def nestedMap (d : Doc) (path : List String) : Option Doc :=
  match getNestedVal d path with
  | some (.obj m) => some m
  | _ => none

/-- Nested field write, as `unstructured.SetNestedField` with its error
ignored (the `Unstructured.setNestedField` helper): creates missing
intermediate maps, leaves the document unchanged when an intermediate
value exists but is not a map. -/
def setNestedField : Doc → List String → Val → Doc
  | d, [], _ => d
  | d, [k], v => setField d k v
  | d, k :: rest, v =>
    match lookupField d k with
    | some (.obj d') => setField d k (.obj (setNestedField d' rest v))
    | some _ => d
    | none => setField d k (.obj (setNestedField [] rest v))

/-- Nested field removal, as `unstructured.RemoveNestedField`: descends
through existing maps only, deletes the final key. -/
def removeNestedField : Doc → List String → Doc
  | d, [] => d
  | d, [k] => removeField d k
  | d, k :: rest =>
    match lookupField d k with
    | some (.obj d') => setField d k (.obj (removeNestedField d' rest))
    | _ => d

/-- The accessor `Unstructured.GetName` (reads `metadata.name`). -/
def getName (d : Doc) : String := getNestedString d ["metadata", "name"]

/-- The accessor `Unstructured.GetNamespace` (reads `metadata.namespace`). -/
def getNamespace (d : Doc) : String := getNestedString d ["metadata", "namespace"]

/-- The accessor `Unstructured.GetKind` (reads the top-level `kind`). -/
def getKind (d : Doc) : String := getNestedString d ["kind"]

/-- The mutator `Unstructured.SetNamespace`: an empty argument removes
`metadata.namespace`, a non-empty argument writes it. -/
def setNamespace (d : Doc) (ns : String) : Doc :=
  if ns = "" then removeNestedField d ["metadata", "namespace"]
  else setNestedField d ["metadata", "namespace"] (.str ns)

/-- Group/version/resource coordinates (`schema.GroupVersionResource`). -/
structure GVR where
  group : String
  version : String
  resource : String
deriving DecidableEq, Repr

/-- Kubernetes API error classification, distinguishing exactly what the
code distinguishes via `errors.IsNotFound`. -/
inductive KErr where
  | notFound
  | other (msg : String)
deriving DecidableEq, Repr

/-- One resource entry of a discovery resource list
(`metav1.APIResource`, restricted to the fields the code reads). -/
structure APIResource where
  name : String
  kind : String
deriving DecidableEq, Repr

/-- One group/version resource list returned by discovery
(`metav1.APIResourceList`). -/
structure APIResourceList where
  groupVersion : String
  apiResources : List APIResource
deriving DecidableEq, Repr

/-- Discovery-call error classification: `groupFailure` stands for errors
satisfying `discovery.IsGroupDiscoveryFailedError`, `fatal` for all
others. -/
inductive DiscErr where
  | groupFailure
  | fatal (msg : String)
deriving DecidableEq, Repr

/-- Outcome of `discoveryClient.ServerPreferredResources()`: Go returns both
a (possibly partial) list slice and an error. -/
structure Discovery where
  lists : List APIResourceList
  err : Option DiscErr
deriving DecidableEq, Repr

/-- Split of a character list at every slash (`strings.Count` and
`strings.Index` over "/", in one pass). -/
def splitSlash : List Char → List (List Char)
  | [] => [[]]
  | c :: rest =>
    if c = '/' then [] :: splitSlash rest
    else
      match splitSlash rest with
      | [] => [[c]]
      | p :: ps => (c :: p) :: ps

/-- The parser `schema.ParseGroupVersion`: empty or "/" give the empty
group/version, no slash means version only, one slash splits, more than
one slash is an error (`none`). -/
def parseGroupVersion (gv : String) : Option (String × String) :=
  if gv = "" ∨ gv = "/" then some ("", "")
  else
    match splitSlash gv.data with
    | [v] => some ("", String.mk v)
    | [g, v] => some (String.mk g, String.mk v)
    | _ => none

/-- The GVR cache `apiResourceCache` of `Client`, as a map from kind name
to coordinates. -/
abbrev Cache := String → Option GVR

/-- First resource whose `Kind` equals the requested kind, in list order
(the inner loop of `getCachedGVR`). -/
def findKindRes : List APIResource → String → Option APIResource
  | [], _ => none
  | r :: rest, kind => if r.kind = kind then some r else findKindRes rest kind

/-- The discovery scan of `getCachedGVR`: walk the resource lists in order,
skip lists whose group/version fails to parse, return the first matching
kind's coordinates. -/
def scanLists : List APIResourceList → String → Option GVR
  | [], _ => none
  | rl :: rest, kind =>
    match parseGroupVersion rl.groupVersion with
    | none => scanLists rest kind
    | some (g, v) =>
      match findKindRes rl.apiResources kind with
      | some r => some ⟨g, v, r.name⟩
      | none => scanLists rest kind

/-- Error returned by `getCachedGVR`: a fatal discovery failure, or the
"resource type %s not found" error. -/
inductive GVRErr where
  | discovery (msg : String)
  | kindAbsent (kind : String)
deriving DecidableEq, Repr

/-- The function `Client.getCachedGVR`: read the cache first and return a
hit immediately; on a miss call `ServerPreferredResources` once (the
`Nat` counts discovery calls of this invocation), propagate a
non-group-discovery error, scan the lists, cache and return a match, and
return the not-found error without caching when the scan finds nothing. -/
def getCachedGVR (disc : Discovery) (cache : Cache) (kind : String) :
    Except GVRErr GVR × Cache × Nat :=
  match cache kind with
  | some gvr => (.ok gvr, cache, 0)
  | none =>
    match disc.err with
    | some (.fatal msg) => (.error (.discovery msg), cache, 1)
    | _ =>
      match scanLists disc.lists kind with
      | some gvr => (.ok gvr, fun k => if k = kind then some gvr else cache k, 1)
      | none => (.error (.kindAbsent kind), cache, 1)

/-- Repeated sequential invocations of `getCachedGVR` for one kind,
threading the cache and summing the discovery-call counts. -/
def resolveIter (disc : Discovery) (cache : Cache) (kind : String) : Nat → Cache × Nat
  | 0 => (cache, 0)
  | n + 1 =>
    match getCachedGVR disc cache kind with
    | (_, c', m) =>
      match resolveIter disc c' kind n with
      | (c'', t) => (c'', m + t)

/-- Patch content type (`types.MergePatchType` vs
`types.StrategicMergePatchType`). -/
inductive PatchType where
  | merge
  | strategic
deriving DecidableEq, Repr

/-- One cluster call issued by the access layer, recorded in order:
a typed namespace Get/Create, or a dynamic-client Patch/Create addressed
by coordinates, namespace, and (for Patch) name, patch type and raw body. -/
inductive Action where
  | nsGet (ns : String)
  | nsCreate (ns : String)
  | patch (gvr : GVR) (ns name : String) (pt : PatchType) (body : String)
  | create (gvr : GVR) (ns : String) (obj : Doc)

/-- Whether an action is a dynamic-client Create. -/
def Action.isCreate : Action → Bool
  | .create _ _ _ => true
  | _ => false

/-- Whether an action is a dynamic-client Patch. -/
def Action.isPatch : Action → Bool
  | .patch _ _ _ _ _ => true
  | _ => false

/-- Whether an action is a typed namespace Create. -/
def Action.isNsCreate : Action → Bool
  | .nsCreate _ => true
  | _ => false

/-- Whether an action is a dynamic-client call (Patch or Create). -/
def Action.isDyn (a : Action) : Bool := a.isPatch || a.isCreate

/-- The namespace an action is addressed to. -/
def Action.targetNs : Action → String
  | .nsGet ns => ns
  | .nsCreate ns => ns
  | .patch _ ns _ _ _ => ns
  | .create _ ns _ => ns

/-- Environment of external calls made by the client: manifest decoding
(`encoding/json`, `sigs.k8s.io/yaml`), the typed core-v1 namespace
client, and the dynamic client. Each is a pure function so that one call
site always sees one outcome. -/
structure ClusterEnv where
  parseJSON : String → Except String Doc
  yamlToJSON : String → Except String String
  nsGet : String → Except KErr Unit
  nsCreate : String → Except KErr Unit
  patch : GVR → String → String → PatchType → String → Except KErr Doc
  create : GVR → String → Doc → Except KErr Doc
  getNamespaced : GVR → String → String → Except KErr Doc
  getCluster : GVR → String → Except KErr Doc

/-- Error classification of the create-or-update operations, one
constructor per distinct `fmt.Errorf` site. -/
inductive CoUErr where
  | parseYAML (msg : String)
  | parseManifest (msg : String)
  | kindRequired
  | gvr (e : GVRErr)
  | nsEnsure (e : KErr)
  | nameRequired
  | patchCreate (e : KErr)
deriving DecidableEq, Repr

/-- The shared tail of both create-or-update variants (lines 322-336 and
404-417 of the client): attempt a merge patch of the object by name; on
`IsNotFound` fall back to a dynamic Create of the parsed object; return
any remaining error. -/
def patchOrCreate (env : ClusterEnv) (gvr : GVR) (ns name body : String) (obj : Doc) :
    Except KErr Doc × List Action :=
  match env.patch gvr ns name .merge body with
  | .ok d => (.ok d, [.patch gvr ns name .merge body])
  | .error .notFound =>
    match env.create gvr ns obj with
    | .ok d => (.ok d, [.patch gvr ns name .merge body, .create gvr ns obj])
    | .error e => (.error e, [.patch gvr ns name .merge body, .create gvr ns obj])
  | .error (.other m) => (.error (.other m), [.patch gvr ns name .merge body])

/-- The function `Client.CreateOrUpdateResourceJSON`: decode the JSON
manifest, resolve the GVR, get the namespace and create it transparently
on not-found (any remaining error of that step is fatal), unconditionally
overwrite the object's namespace with the argument, require a name, then
merge-patch with the raw manifest and fall back to Create on not-found. -/
def CreateOrUpdateResourceJSON (env : ClusterEnv) (disc : Discovery) (cache : Cache)
    (ns manifestJSON kind : String) :
    Except CoUErr Doc × Cache × List Action :=
  match env.parseJSON manifestJSON with
  | .error m => (.error (.parseManifest m), cache, [])
  | .ok obj =>
    match getCachedGVR disc cache kind with
    | (.error e, cache', _) => (.error (.gvr e), cache', [])
    | (.ok gvr, cache', _) =>
      let nsStep : Except KErr Unit × List Action :=
        match env.nsGet ns with
        | .ok _ => (.ok (), [.nsGet ns])
        | .error .notFound =>
          match env.nsCreate ns with
          | .ok _ => (.ok (), [.nsGet ns, .nsCreate ns])
          | .error e => (.error e, [.nsGet ns, .nsCreate ns])
        | .error (.other m) => (.error (.other m), [.nsGet ns])
      match nsStep with
      | (.error e, tr) => (.error (.nsEnsure e), cache', tr)
      | (.ok _, tr) =>
        let obj' := setNamespace obj ns
        if getName obj' = "" then (.error .nameRequired, cache', tr)
        else
          match patchOrCreate env gvr (getNamespace obj') (getName obj') manifestJSON obj' with
          | (.ok d, tr') => (.ok d, cache', tr ++ tr')
          | (.error e, tr') => (.error (.patchCreate e), cache', tr ++ tr')

/-- The function `Client.CreateOrUpdateResourceYAML`: convert YAML to
JSON, decode it, take the kind argument or else the manifest's kind
(failing if both are empty), resolve the GVR, overwrite the object's
namespace only when the argument is non-empty, require a name, then
merge-patch with the converted JSON and fall back to Create on
not-found. No namespace existence check or creation is performed. -/
def CreateOrUpdateResourceYAML (env : ClusterEnv) (disc : Discovery) (cache : Cache)
    (ns yamlManifest kind : String) :
    Except CoUErr Doc × Cache × List Action :=
  match env.yamlToJSON yamlManifest with
  | .error m => (.error (.parseYAML m), cache, [])
  | .ok jsonData =>
    match env.parseJSON jsonData with
    | .error m => (.error (.parseManifest m), cache, [])
    | .ok obj =>
      let resourceKind := if kind = "" then getKind obj else kind
      if resourceKind = "" then (.error .kindRequired, cache, [])
      else
        match getCachedGVR disc cache resourceKind with
        | (.error e, cache', _) => (.error (.gvr e), cache', [])
        | (.ok gvr, cache', _) =>
          let obj' := if ns = "" then obj else setNamespace obj ns
          if getName obj' = "" then (.error .nameRequired, cache', [])
          else
            match patchOrCreate env gvr (getNamespace obj') (getName obj') jsonData obj' with
            | (.ok d, tr) => (.ok d, cache', tr)
            | (.error e, tr) => (.error (.patchCreate e), cache', tr)

/-- Error classification of the read operations. -/
inductive GetErr where
  | gvr (e : GVRErr)
  | retrieve (e : KErr)
deriving DecidableEq, Repr

/-- The function `Client.GetResource`: resolve the GVR, then fetch the
object with the dynamic client, namespaced when the namespace argument is
non-empty and cluster-scoped otherwise, wrapping any fetch error. -/
def GetResource (env : ClusterEnv) (disc : Discovery) (cache : Cache)
    (kind name ns : String) : Except GetErr Doc × Cache :=
  match getCachedGVR disc cache kind with
  | (.error e, cache', _) => (.error (.gvr e), cache')
  | (.ok gvr, cache', _) =>
    match (if ns = "" then env.getCluster gvr name else env.getNamespaced gvr ns name) with
    | .ok obj => (.ok obj, cache')
    | .error e => (.error (.retrieve e), cache')

/-- The function `Client.DescribeResource`: resolve the GVR, then fetch
the object with the dynamic client, namespaced when the namespace
argument is non-empty and cluster-scoped otherwise, wrapping any fetch
error (the source body is line-for-line the same as `GetResource`). -/
def DescribeResource (env : ClusterEnv) (disc : Discovery) (cache : Cache)
    (kind name ns : String) : Except GetErr Doc × Cache :=
  match getCachedGVR disc cache kind with
  | (.error e, cache', _) => (.error (.gvr e), cache')
  | (.ok gvr, cache', _) =>
    match (if ns = "" then env.getCluster gvr name else env.getNamespaced gvr ns name) with
    | .ok obj => (.ok obj, cache')
    | .error e => (.error (.retrieve e), cache')

/-- Error classification of `RolloutRestart`. -/
inductive RolloutErr where
  | gvr (e : GVRErr)
  | patchFailed (e : KErr)
  | noTemplate (kind : String)
deriving DecidableEq, Repr

/-- The strategic-merge patch body stamped by `RolloutRestart`, with the
current time formatted into the `kubectl.kubernetes.io/restartedAt`
annotation. -/
def restartPatchBody (now : String) : String :=
  "\x7b\"spec\":\x7b\"template\":\x7b\"metadata\":\x7b\"annotations\":\x7b\"kubectl.kubernetes.io/restartedAt\":\"" ++
    now ++ "\"\x7d\x7d\x7d\x7d\x7d"

/-- The function `Client.RolloutRestart`: resolve the GVR, send the
strategic-merge restart patch, and only afterwards check that the patched
object contains a `spec.template` map, failing with the
"does not support rollout restart" error when it does not. -/
def RolloutRestart (env : ClusterEnv) (disc : Discovery) (cache : Cache)
    (now kind name ns : String) : Except RolloutErr Doc × Cache × List Action :=
  match getCachedGVR disc cache kind with
  | (.error e, cache', _) => (.error (.gvr e), cache', [])
  | (.ok gvr, cache', _) =>
    let body := restartPatchBody now
    match env.patch gvr ns name .strategic body with
    | .error e => (.error (.patchFailed e), cache', [.patch gvr ns name .strategic body])
    | .ok content =>
      match nestedMap content ["spec", "template"] with
      | none => (.error (.noTemplate kind), cache', [.patch gvr ns name .strategic body])
      | some _ => (.ok content, cache', [.patch gvr ns name .strategic body])

/-- Environment of the log path: the typed pod Get (projected to the
container-name list the code reads) and log streaming. `stream ns pod c`
models `GetLogs(pod, opts).Stream(ctx)` with the container option set to
`c` (empty string when the option is left unset): an outer error is a
`Stream` failure, an inner error an `io.Copy` failure, and the inner
success the fully read tail content. -/
structure LogEnv where
  getPod : String → String → Except String (List String)
  stream : String → String → String → Except String (Except String String)

/-- Error classification of `GetPodsLogs`, one constructor per distinct
`fmt.Errorf` site. -/
inductive LogErr where
  | containerStream (container msg : String)
  | readLogs (msg : String)
  | podDetails (msg : String)
  | singleStream (msg : String)
deriving DecidableEq, Repr

/-- One iteration of the multi-container loop of `GetPodsLogs`: the text
appended for one container — an inline error marker when the stream fails,
otherwise the labeled separator header followed by the content or by an
inline read-error marker. -/
def containerChunk (env : LogEnv) (ns pod c : String) : String :=
  match env.stream ns pod c with
  | .error e => "\n--- Error getting logs for container " ++ c ++ ": " ++ e ++ " ---\n"
  | .ok (.error e) =>
    "\n--- Logs for container " ++ c ++ " ---\n" ++ "Error reading logs: " ++ e ++ "\n"
  | .ok (.ok content) => "\n--- Logs for container " ++ c ++ " ---\n" ++ content

/-- Sequential concatenation of the per-container texts, as the
`strings.Builder` accumulates them. -/
def concatChunks : List String → String
  | [] => ""
  | s :: rest => s ++ concatChunks rest

/-- The function `Client.GetPodsLogs`: with a container name, stream that
container's tail and fail on stream or read errors; without one, get the
pod, stream directly when it has exactly one container, and otherwise
aggregate every container's chunk, tolerating per-container failures
inline and succeeding overall. -/
def GetPodsLogs (env : LogEnv) (ns containerName podName : String) :
    Except LogErr String :=
  if containerName ≠ "" then
    match env.stream ns podName containerName with
    | .error m => .error (.containerStream containerName m)
    | .ok (.error m) => .error (.readLogs m)
    | .ok (.ok s) => .ok s
  else
    match env.getPod ns podName with
    | .error m => .error (.podDetails m)
    | .ok containers =>
      if containers.length = 1 then
        match env.stream ns podName "" with
        | .error m => .error (.singleStream m)
        | .ok (.error m) => .error (.readLogs m)
        | .ok (.ok s) => .ok s
      else
        .ok (concatChunks (containers.map (containerChunk env ns podName)))

/-- A REST config (`rest.Config`), restricted to the fields
`BuildKubernetesConfig` writes or that distinguish its outcomes. -/
structure RestConfig where
  host : String := ""
  bearerToken : String := ""
  insecure : Bool := false
  caData : String := ""
deriving DecidableEq, Repr

/-- An in-memory kubeconfig object as produced by `clientcmd.Load`. The
content is irrelevant to the resolution logic; only the success of the
two conversion steps matters. -/
structure KubeconfigFile where
  raw : String
deriving DecidableEq, Repr

/-- Environment of `BuildKubernetesConfig`: the environment variables it
reads (empty string standing for unset, as `os.Getenv` reports), the
clientcmd library calls, the CA file read, the presence check of the
service-account token file, and the in-cluster and from-flags config
builders. -/
structure ConfigEnv where
  kubeconfigData : String
  server : String
  token : String
  insecureVar : String
  caCert : String
  caCertPath : String
  kubeconfigEnv : String
  home : String
  clientcmdLoad : String → Except String KubeconfigFile
  clientConfig : KubeconfigFile → Except String RestConfig
  readFile : String → Except String String
  saTokenStatOK : Bool
  inCluster : Except String RestConfig
  buildFromFlags : String → Except String RestConfig

/-- Error classification of `BuildKubernetesConfig`, one constructor per
distinct `fmt.Errorf` site. -/
inductive ConfigErr where
  | loadKubeconfigData (msg : String)
  | buildFromData (msg : String)
  | tokenRequired
  | caCertRead (path msg : String)
  | inClusterFailed (msg : String)
  | buildConfig (msg : String)
deriving DecidableEq, Repr

/-- The function `BuildKubernetesConfig`: four credential sources in
priority order — inline kubeconfig content, explicit server URL plus
bearer token (with optional CA material and insecure flag), in-cluster
service-account config when the token file exists, and finally a
kubeconfig file path taken from the argument, the KUBECONFIG variable, or
the per-user default location (`filepath.Join(home, ".kube", "config")`,
rendered as string concatenation). -/
def BuildKubernetesConfig (env : ConfigEnv) (kubeconfigPath : String) :
    Except ConfigErr RestConfig :=
  if env.kubeconfigData ≠ "" then
    match env.clientcmdLoad env.kubeconfigData with
    | .error m => .error (.loadKubeconfigData m)
    | .ok cfgObj =>
      match env.clientConfig cfgObj with
      | .error m => .error (.buildFromData m)
      | .ok c => .ok c
  else if env.server ≠ "" then
    if env.token = "" then .error .tokenRequired
    else
      let base : RestConfig :=
        { host := env.server, bearerToken := env.token,
          insecure := env.insecureVar = "true" }
      if env.caCert ≠ "" then .ok { base with caData := env.caCert }
      else if env.caCertPath ≠ "" then
        match env.readFile env.caCertPath with
        | .error m => .error (.caCertRead env.caCertPath m)
        | .ok data => .ok { base with caData := data }
      else .ok base
  else if env.saTokenStatOK then
    match env.inCluster with
    | .error m => .error (.inClusterFailed m)
    | .ok c => .ok c
  else
    let kubeconfig :=
      if kubeconfigPath ≠ "" then kubeconfigPath
      else if env.kubeconfigEnv ≠ "" then env.kubeconfigEnv
      else if env.home ≠ "" then env.home ++ "/.kube/config"
      else ""
    match env.buildFromFlags kubeconfig with
    | .error m => .error (.buildConfig m)
    | .ok c => .ok c

/-! Concrete fixtures used to evaluate the model on closed inputs. -/

/-- A discovery outcome serving exactly the core-v1 pods resource. -/
def discPod : Discovery := ⟨[⟨"v1", [⟨"pods", "Pod"⟩]⟩], none⟩

/-- The empty cache. -/
def cacheEmpty : Cache := fun _ => none

/-- Coordinates of the core-v1 pods resource. -/
def gvrPod : GVR := ⟨"", "v1", "pods"⟩

/-- The cache after resolving the kind Pod against `discPod`. -/
def cachePod : Cache := fun k => if k = "Pod" then some gvrPod else cacheEmpty k

/-- A pod manifest document with a name and no namespace. -/
def docPod : Doc := [("kind", Val.str "Pod"), ("metadata", Val.obj [("name", Val.str "my-pod")])]

/-- A patched-object content with no `spec.template` substructure. -/
def docNoTemplate : Doc := [("kind", Val.str "Pod"), ("spec", Val.obj [])]

/-- A cluster environment in which the object does not exist yet: every
merge patch reports not-found and every create succeeds, the namespace
exists, and parsing always yields `docPod`. -/
def envCreateOnly : ClusterEnv where
  parseJSON := fun _ => .ok docPod
  yamlToJSON := fun s => .ok s
  nsGet := fun _ => .ok ()
  nsCreate := fun _ => .ok ()
  patch := fun _ _ _ _ _ => .error .notFound
  create := fun _ _ o => .ok o
  getNamespaced := fun _ _ _ => .error .notFound
  getCluster := fun _ _ => .error .notFound

/-- A cluster environment in which the namespace lookup fails with an
error that is not not-found. -/
def envNsBroken : ClusterEnv where
  parseJSON := fun _ => .ok docPod
  yamlToJSON := fun s => .ok s
  nsGet := fun _ => .error (.other "name may not be empty")
  nsCreate := fun _ => .ok ()
  patch := fun _ _ _ _ _ => .error .notFound
  create := fun _ _ o => .ok o
  getNamespaced := fun _ _ _ => .error .notFound
  getCluster := fun _ _ => .error .notFound

/-- A cluster environment whose strategic patch succeeds but returns a
document with no `spec.template`. -/
def envRollout : ClusterEnv where
  parseJSON := fun _ => .ok docPod
  yamlToJSON := fun s => .ok s
  nsGet := fun _ => .ok ()
  nsCreate := fun _ => .ok ()
  patch := fun _ _ _ _ _ => .ok docNoTemplate
  create := fun _ _ o => .ok o
  getNamespaced := fun _ _ _ => .error .notFound
  getCluster := fun _ _ => .error .notFound

/-- A two-container pod whose first container's stream succeeds and whose
second container's stream fails. -/
def envLogs : LogEnv where
  getPod := fun _ _ => .ok ["app", "sidecar"]
  stream := fun _ _ c =>
    if c = "app" then .ok (.ok "alpha-logs")
    else .error "connection refused"

/-! Vocabulary used by the statements. -/

/-- Substring containment, by explicit decomposition. -/
def strContains (s sub : String) : Prop := ∃ p q, s = p ++ sub ++ q

/-- Wrapper applied by both create-or-update variants to the outcome of
the shared patch-then-create tail: successful documents pass through,
remaining errors become the create-or-patch error, and the tail's actions
are appended to the actions already issued. -/
def wrapPC (cache' : Cache) (tr0 : List Action) :
    Except KErr Doc × List Action → Except CoUErr Doc × Cache × List Action
  | (.ok d, tr) => (.ok d, cache', tr0 ++ tr)
  | (.error e, tr) => (.error (.patchCreate e), cache', tr0 ++ tr)

/-- The patch-first/create-on-not-found protocol, as observed on a result
and a trace: either no dynamic call was issued; or exactly one merge
patch was issued, whose success is returned and whose non-not-found
failure is propagated as the result with no create attempted; or the
merge patch was issued, failed not-found, and exactly one create of the
same coordinates and namespace follows it. -/
def dynOutcome (env : ClusterEnv) (res : Except CoUErr Doc) (tr : List Action) : Prop :=
  tr.filter Action.isDyn = [] ∨
  (∃ gvr nsv nm body,
      tr.filter Action.isDyn = [Action.patch gvr nsv nm .merge body] ∧
      ((∃ d, env.patch gvr nsv nm .merge body = .ok d ∧ res = .ok d) ∨
       (∃ m, env.patch gvr nsv nm .merge body = .error (.other m) ∧
          res = .error (.patchCreate (.other m))))) ∨
  (∃ gvr nsv nm body obj,
      tr.filter Action.isDyn = [Action.patch gvr nsv nm .merge body, Action.create gvr nsv obj] ∧
      env.patch gvr nsv nm .merge body = .error .notFound)

/-- A configuration environment with only the server/token source set. -/
def envServerToken : ConfigEnv where
  kubeconfigData := ""
  server := "https://example:6443"
  token := ""
  insecureVar := ""
  caCert := ""
  caCertPath := ""
  kubeconfigEnv := ""
  home := "/home/u"
  clientcmdLoad := fun s => .ok ⟨s⟩
  clientConfig := fun _ => .ok {}
  readFile := fun _ => .error "no such file"
  saTokenStatOK := false
  inCluster := .error "not in cluster"
  buildFromFlags := fun p => .ok { host := p }

end K8s

namespace K8s

/-! Helper lemmas about the unstructured-document operations. -/

theorem lookupField_setField_self (d : Doc) (k : String) (v : Val) :
    lookupField (setField d k v) k = some v := by
  induction d with
  | nil => simp [setField, lookupField]
  | cons hd tl ih =>
    obtain ⟨k', v'⟩ := hd
    by_cases h : k' = k
    · simp [setField, lookupField, h]
    · simp [setField, lookupField, h, ih]

theorem lookupField_setField_ne (d : Doc) (k k' : String) (v : Val) (h : k' ≠ k) :
    lookupField (setField d k v) k' = lookupField d k' := by
  have hk : k ≠ k' := Ne.symm h
  induction d with
  | nil => simp [setField, lookupField, hk]
  | cons hd tl ih =>
    obtain ⟨k0, v0⟩ := hd
    by_cases h0 : k0 = k
    · subst h0
      simp [setField, lookupField, hk]
    · simp [setField, lookupField, h0, ih]

theorem lookupField_removeField_self (d : Doc) (k : String) :
    lookupField (removeField d k) k = none := by
  induction d with
  | nil => simp [removeField, lookupField]
  | cons hd tl ih =>
    obtain ⟨k0, v0⟩ := hd
    by_cases h0 : k0 = k
    · simp [removeField, h0, ih]
    · simp [removeField, lookupField, h0, ih]

theorem lookupField_removeField_ne (d : Doc) (k k' : String) (h : k' ≠ k) :
    lookupField (removeField d k) k' = lookupField d k' := by
  have hk : k ≠ k' := Ne.symm h
  induction d with
  | nil => simp [removeField]
  | cons hd tl ih =>
    obtain ⟨k0, v0⟩ := hd
    by_cases h0 : k0 = k
    · subst h0
      simp [removeField, lookupField, hk, ih]
    · simp [removeField, lookupField, h0, ih]

theorem getName_setNamespace (d : Doc) (ns : String) :
    getName (setNamespace d ns) = getName d := by
  by_cases hns : ns = ""
  · subst hns
    cases hm : lookupField d "metadata" with
    | none => simp [setNamespace, removeNestedField, hm]
    | some v =>
      cases v with
      | obj m =>
        simp [setNamespace, removeNestedField, hm, getName, getNestedString, getNestedVal,
          lookupField_setField_self,
          lookupField_removeField_ne m "namespace" "name" (by decide)]
      | null => simp [setNamespace, removeNestedField, hm]
      | str s => simp [setNamespace, removeNestedField, hm]
      | num n => simp [setNamespace, removeNestedField, hm]
      | boolean b => simp [setNamespace, removeNestedField, hm]
      | arr xs => simp [setNamespace, removeNestedField, hm]
  · cases hm : lookupField d "metadata" with
    | none =>
      simp [setNamespace, hns, setNestedField, hm, getName, getNestedString, getNestedVal,
        lookupField_setField_self, setField, lookupField]
    | some v =>
      cases v with
      | obj m =>
        simp [setNamespace, hns, setNestedField, hm, getName, getNestedString, getNestedVal,
          lookupField_setField_self,
          lookupField_setField_ne m "namespace" "name" _ (by decide)]
      | null => simp [setNamespace, hns, setNestedField, hm]
      | str s => simp [setNamespace, hns, setNestedField, hm]
      | num n => simp [setNamespace, hns, setNestedField, hm]
      | boolean b => simp [setNamespace, hns, setNestedField, hm]
      | arr xs => simp [setNamespace, hns, setNestedField, hm]

theorem getNamespace_setNamespace_of_ne (d : Doc) (ns : String) (hns : ns ≠ "")
    (hname : getName (setNamespace d ns) ≠ "") :
    getNamespace (setNamespace d ns) = ns := by
  cases hm : lookupField d "metadata" with
  | none =>
    exfalso
    apply hname
    simp [setNamespace, hns, setNestedField, hm, getName, getNestedString, getNestedVal,
      lookupField_setField_self, setField, lookupField]
  | some v =>
    cases v with
    | obj m =>
      simp [setNamespace, hns, setNestedField, hm, getNamespace, getNestedString, getNestedVal,
        lookupField_setField_self]
    | null =>
      exfalso; apply hname
      simp [setNamespace, hns, setNestedField, hm, getName, getNestedString, getNestedVal]
    | str s =>
      exfalso; apply hname
      simp [setNamespace, hns, setNestedField, hm, getName, getNestedString, getNestedVal]
    | num n =>
      exfalso; apply hname
      simp [setNamespace, hns, setNestedField, hm, getName, getNestedString, getNestedVal]
    | boolean b =>
      exfalso; apply hname
      simp [setNamespace, hns, setNestedField, hm, getName, getNestedString, getNestedVal]
    | arr xs =>
      exfalso; apply hname
      simp [setNamespace, hns, setNestedField, hm, getName, getNestedString, getNestedVal]

theorem getNamespace_setNamespace_empty (d : Doc) :
    getNamespace (setNamespace d "") = "" := by
  cases hm : lookupField d "metadata" with
  | none => simp [setNamespace, removeNestedField, hm, getNamespace, getNestedString, getNestedVal]
  | some v =>
    cases v with
    | obj m =>
      simp [setNamespace, removeNestedField, hm, getNamespace, getNestedString, getNestedVal,
        lookupField_setField_self, lookupField_removeField_self]
    | null => simp [setNamespace, removeNestedField, hm, getNamespace, getNestedString, getNestedVal]
    | str s => simp [setNamespace, removeNestedField, hm, getNamespace, getNestedString, getNestedVal]
    | num n => simp [setNamespace, removeNestedField, hm, getNamespace, getNestedString, getNestedVal]
    | boolean b =>
      simp [setNamespace, removeNestedField, hm, getNamespace, getNestedString, getNestedVal]
    | arr xs =>
      simp [setNamespace, removeNestedField, hm, getNamespace, getNestedString, getNestedVal]

/-- C2: for every kind name whose resolution has once succeeded (returning
coordinates g/v/r), every subsequent resolve call for that same kind name
returns the same coordinates and performs no further discovery call — even
against a different discovery outcome, the cached entry is returned
immediately with a discovery-call count of zero and an unchanged cache. -/
theorem getCachedGVR_hit_after_success
    (disc disc' : Discovery) (cache : Cache) (kind : String)
    (gvr : GVR) (cache' : Cache) (n : Nat)
    (h : getCachedGVR disc cache kind = (.ok gvr, cache', n)) :
    getCachedGVR disc' cache' kind = (.ok gvr, cache', 0) := by
  have hcache : cache' kind = some gvr := by
    unfold getCachedGVR at h
    split at h
    · simp only [Prod.mk.injEq, Except.ok.injEq] at h
      obtain ⟨rfl, rfl, -⟩ := h
      assumption
    · split at h
      · simp at h
      · split at h
        · simp only [Prod.mk.injEq, Except.ok.injEq] at h
          obtain ⟨rfl, rfl, -⟩ := h
          simp
        · simp at h
  unfold getCachedGVR
  rw [hcache]

/-- C2 witness: resolving Pod against a one-entry discovery populates the
cache, and a second resolve returns the same coordinates touching neither
discovery nor the cache. -/
theorem getCachedGVR_hit_after_success_witness :
    getCachedGVR discPod cachePod "Pod" = (.ok gvrPod, cachePod, 0) :=
  getCachedGVR_hit_after_success discPod discPod cacheEmpty "Pod" gvrPod cachePod 1 (by rfl)

/-- C3: for every kind name not present in cluster discovery (and not in
the cache), resolve fails with the kind-not-found error, the failure is
not stored in the cache, and every repeated resolve call triggers one
fresh full discovery call (n sequential calls perform n discovery calls
and leave the cache untouched). -/
theorem getCachedGVR_notFound_not_cached
    (disc : Discovery) (cache : Cache) (kind : String)
    (hmiss : cache kind = none)
    (hscan : scanLists disc.lists kind = none)
    (hf : ∀ msg, disc.err ≠ some (.fatal msg)) :
    getCachedGVR disc cache kind = (.error (.kindAbsent kind), cache, 1) ∧
      ∀ n : Nat, resolveIter disc cache kind n = (cache, n) := by
  have h1 : getCachedGVR disc cache kind = (.error (.kindAbsent kind), cache, 1) := by
    unfold getCachedGVR
    rw [hmiss]
    cases hd : disc.err with
    | none => simp [hscan]
    | some e =>
      cases e with
      | groupFailure => simp [hscan]
      | fatal m => exact absurd hd (hf m)
  refine ⟨h1, ?_⟩
  intro n
  induction n with
  | zero => simp [resolveIter]
  | succ n ih => simp [resolveIter, h1, ih, Nat.add_comm]

/-- C3 witness: the kind Zebra is absent from the one-entry discovery;
resolving it fails with the not-found error without caching, and three
sequential resolves perform three discovery calls. -/
theorem getCachedGVR_notFound_not_cached_witness :
    getCachedGVR discPod cacheEmpty "Zebra" = (.error (.kindAbsent "Zebra"), cacheEmpty, 1) ∧
      resolveIter discPod cacheEmpty "Zebra" 3 = (cacheEmpty, 3) := by
  have h := getCachedGVR_notFound_not_cached discPod cacheEmpty "Zebra" (by rfl) (by rfl)
    (by intro m hm; simp [discPod] at hm)
  exact ⟨h.1, h.2 3⟩

/-- C9: for every input (kind, name, namespace), every environment and
every cache state, DescribeResource returns exactly the same result as
GetResource — the same document or error classification, and the same
resulting cache: the two operations are extensionally equal. -/
theorem describeResource_eq_getResource
    (env : ClusterEnv) (disc : Discovery) (cache : Cache) (kind name ns : String) :
    DescribeResource env disc cache kind name ns = GetResource env disc cache kind name ns := rfl

/-! Characterization lemmas for the create-or-update protocol. -/

theorem patchOrCreate_of_ok (env : ClusterEnv) (gvr : GVR) (ns name body : String)
    (obj d : Doc) (h : env.patch gvr ns name .merge body = .ok d) :
    patchOrCreate env gvr ns name body obj = (.ok d, [.patch gvr ns name .merge body]) := by
  simp [patchOrCreate, h]

theorem patchOrCreate_of_notFound (env : ClusterEnv) (gvr : GVR) (ns name body : String)
    (obj : Doc) (h : env.patch gvr ns name .merge body = .error .notFound) :
    patchOrCreate env gvr ns name body obj =
      (match env.create gvr ns obj with
       | .ok d => (.ok d, [.patch gvr ns name .merge body, .create gvr ns obj])
       | .error e => (.error e, [.patch gvr ns name .merge body, .create gvr ns obj])) := by
  simp [patchOrCreate, h]

theorem patchOrCreate_of_other (env : ClusterEnv) (gvr : GVR) (ns name body : String)
    (obj : Doc) (m : String) (h : env.patch gvr ns name .merge body = .error (.other m)) :
    patchOrCreate env gvr ns name body obj =
      (.error (.other m), [.patch gvr ns name .merge body]) := by
  simp [patchOrCreate, h]

theorem patchOrCreate_all_dyn (env : ClusterEnv) (gvr : GVR) (ns name body : String)
    (obj : Doc) :
    ((patchOrCreate env gvr ns name body obj).2).all Action.isDyn = true := by
  unfold patchOrCreate
  cases hp : env.patch gvr ns name .merge body with
  | ok d => simp [Action.isDyn, Action.isPatch]
  | error e =>
    cases e with
    | notFound =>
      cases hc : env.create gvr ns obj <;>
        simp [Action.isDyn, Action.isPatch, Action.isCreate]
    | other m => simp [Action.isDyn, Action.isPatch]

theorem patchOrCreate_dynOutcome (env : ClusterEnv) (gvr : GVR) (ns name body : String)
    (obj : Doc) (cache' : Cache) (tr0 : List Action)
    (h0 : tr0.filter Action.isDyn = []) :
    dynOutcome env (wrapPC cache' tr0 (patchOrCreate env gvr ns name body obj)).1
      (wrapPC cache' tr0 (patchOrCreate env gvr ns name body obj)).2.2 := by
  cases hp : env.patch gvr ns name .merge body with
  | ok d =>
    rw [patchOrCreate_of_ok env gvr ns name body obj d hp]
    refine Or.inr (Or.inl ⟨gvr, ns, name, body, ?_, Or.inl ⟨d, hp, rfl⟩⟩)
    simp [wrapPC, List.filter_append, h0, Action.isDyn, Action.isPatch]
  | error e =>
    cases e with
    | notFound =>
      rw [patchOrCreate_of_notFound env gvr ns name body obj hp]
      cases hc : env.create gvr ns obj with
      | ok d =>
        refine Or.inr (Or.inr ⟨gvr, ns, name, body, obj, ?_, hp⟩)
        simp [wrapPC, List.filter_append, h0, Action.isDyn, Action.isPatch, Action.isCreate]
      | error e' =>
        refine Or.inr (Or.inr ⟨gvr, ns, name, body, obj, ?_, hp⟩)
        simp [wrapPC, List.filter_append, h0, Action.isDyn, Action.isPatch, Action.isCreate]
    | other m =>
      rw [patchOrCreate_of_other env gvr ns name body obj m hp]
      refine Or.inr (Or.inl ⟨gvr, ns, name, body, ?_, Or.inr ⟨m, hp, rfl⟩⟩)
      simp [wrapPC, List.filter_append, h0, Action.isDyn, Action.isPatch]

theorem json_eq_of_reached (env : ClusterEnv) (disc : Discovery) (cache : Cache)
    (ns m kind : String) (obj : Doc) (gvr : GVR) (cache1 : Cache) (n : Nat)
    (hp : env.parseJSON m = .ok obj)
    (hg : getCachedGVR disc cache kind = (.ok gvr, cache1, n))
    (hns : env.nsGet ns = .ok ())
    (hname : getName (setNamespace obj ns) ≠ "") :
    CreateOrUpdateResourceJSON env disc cache ns m kind =
      wrapPC cache1 [.nsGet ns]
        (patchOrCreate env gvr (getNamespace (setNamespace obj ns))
          (getName (setNamespace obj ns)) m (setNamespace obj ns)) := by
  unfold CreateOrUpdateResourceJSON
  simp only [hp, hg, hns]
  simp only [hname, if_neg, ite_false, reduceIte]
  rcases hpc : patchOrCreate env gvr (getNamespace (setNamespace obj ns))
      (getName (setNamespace obj ns)) m (setNamespace obj ns) with ⟨r, tr⟩
  cases r <;> simp [wrapPC, hpc]

theorem json_eq_of_reached_nsCreated (env : ClusterEnv) (disc : Discovery) (cache : Cache)
    (ns m kind : String) (obj : Doc) (gvr : GVR) (cache1 : Cache) (n : Nat)
    (hp : env.parseJSON m = .ok obj)
    (hg : getCachedGVR disc cache kind = (.ok gvr, cache1, n))
    (hns : env.nsGet ns = .error .notFound)
    (hnc : env.nsCreate ns = .ok ())
    (hname : getName (setNamespace obj ns) ≠ "") :
    CreateOrUpdateResourceJSON env disc cache ns m kind =
      wrapPC cache1 [.nsGet ns, .nsCreate ns]
        (patchOrCreate env gvr (getNamespace (setNamespace obj ns))
          (getName (setNamespace obj ns)) m (setNamespace obj ns)) := by
  unfold CreateOrUpdateResourceJSON
  simp only [hp, hg, hns, hnc]
  simp only [hname, if_neg, ite_false, reduceIte]
  rcases hpc : patchOrCreate env gvr (getNamespace (setNamespace obj ns))
      (getName (setNamespace obj ns)) m (setNamespace obj ns) with ⟨r, tr⟩
  cases r <;> simp [wrapPC, hpc]

theorem json_nsGet_other (env : ClusterEnv) (disc : Discovery) (cache : Cache)
    (ns m kind : String) (obj : Doc) (gvr : GVR) (cache1 : Cache) (n : Nat)
    (hp : env.parseJSON m = .ok obj)
    (hg : getCachedGVR disc cache kind = (.ok gvr, cache1, n))
    (e : String) (hns : env.nsGet ns = .error (.other e)) :
    CreateOrUpdateResourceJSON env disc cache ns m kind =
      (.error (.nsEnsure (.other e)), cache1, [.nsGet ns]) := by
  unfold CreateOrUpdateResourceJSON
  simp only [hp, hg, hns]

theorem json_nsCreate_fail (env : ClusterEnv) (disc : Discovery) (cache : Cache)
    (ns m kind : String) (obj : Doc) (gvr : GVR) (cache1 : Cache) (n : Nat)
    (hp : env.parseJSON m = .ok obj)
    (hg : getCachedGVR disc cache kind = (.ok gvr, cache1, n))
    (hns : env.nsGet ns = .error .notFound)
    (e : KErr) (hnc : env.nsCreate ns = .error e) :
    CreateOrUpdateResourceJSON env disc cache ns m kind =
      (.error (.nsEnsure e), cache1, [.nsGet ns, .nsCreate ns]) := by
  unfold CreateOrUpdateResourceJSON
  simp only [hp, hg, hns, hnc]

theorem yaml_eq_of_reached (env : ClusterEnv) (disc : Discovery) (cache : Cache)
    (ns y kind : String) (jsonData : String) (obj : Doc) (gvr : GVR) (cache1 : Cache) (n : Nat)
    (hy : env.yamlToJSON y = .ok jsonData)
    (hj : env.parseJSON jsonData = .ok obj)
    (hk : (if kind = "" then getKind obj else kind) ≠ "")
    (hg : getCachedGVR disc cache (if kind = "" then getKind obj else kind) =
      (.ok gvr, cache1, n))
    (hname : getName (if ns = "" then obj else setNamespace obj ns) ≠ "") :
    CreateOrUpdateResourceYAML env disc cache ns y kind =
      wrapPC cache1 []
        (patchOrCreate env gvr (getNamespace (if ns = "" then obj else setNamespace obj ns))
          (getName (if ns = "" then obj else setNamespace obj ns)) jsonData
          (if ns = "" then obj else setNamespace obj ns)) := by
  unfold CreateOrUpdateResourceYAML
  simp only [hy, hj, hk, hg, if_neg, ite_false, reduceIte]
  simp only [hname, if_neg, ite_false, reduceIte]
  rcases hpc : patchOrCreate env gvr
      (getNamespace (if ns = "" then obj else setNamespace obj ns))
      (getName (if ns = "" then obj else setNamespace obj ns)) jsonData
      (if ns = "" then obj else setNamespace obj ns) with ⟨r, tr⟩
  cases r <;> simp [wrapPC, hpc]

theorem json_dynOutcome (env : ClusterEnv) (disc : Discovery) (cache : Cache)
    (ns m kind : String) :
    dynOutcome env (CreateOrUpdateResourceJSON env disc cache ns m kind).1
      (CreateOrUpdateResourceJSON env disc cache ns m kind).2.2 := by
  cases hp : env.parseJSON m with
  | error e => left; simp [CreateOrUpdateResourceJSON, hp]
  | ok obj =>
    rcases hg : getCachedGVR disc cache kind with ⟨r, cache1, n⟩
    cases r with
    | error e => left; simp [CreateOrUpdateResourceJSON, hp, hg]
    | ok gvr =>
      cases hns : env.nsGet ns with
      | ok u =>
        cases u
        by_cases hname : getName (setNamespace obj ns) = ""
        · left
          simp [CreateOrUpdateResourceJSON, hp, hg, hns, hname,
            Action.isDyn, Action.isPatch, Action.isCreate]
        · rw [json_eq_of_reached env disc cache ns m kind obj gvr cache1 n hp hg hns hname]
          exact patchOrCreate_dynOutcome env gvr _ _ m _ cache1 [.nsGet ns]
            (by simp [Action.isDyn, Action.isPatch, Action.isCreate])
      | error e =>
        cases e with
        | notFound =>
          cases hnc : env.nsCreate ns with
          | ok u =>
            cases u
            by_cases hname : getName (setNamespace obj ns) = ""
            · left
              simp [CreateOrUpdateResourceJSON, hp, hg, hns, hnc, hname,
                Action.isDyn, Action.isPatch, Action.isCreate]
            · rw [json_eq_of_reached_nsCreated env disc cache ns m kind obj gvr cache1 n
                hp hg hns hnc hname]
              exact patchOrCreate_dynOutcome env gvr _ _ m _ cache1 [.nsGet ns, .nsCreate ns]
                (by simp [Action.isDyn, Action.isPatch, Action.isCreate])
          | error e2 =>
            left
            rw [json_nsCreate_fail env disc cache ns m kind obj gvr cache1 n hp hg hns e2 hnc]
            simp [Action.isDyn, Action.isPatch, Action.isCreate]
        | other m2 =>
          left
          rw [json_nsGet_other env disc cache ns m kind obj gvr cache1 n hp hg m2 hns]
          simp [Action.isDyn, Action.isPatch, Action.isCreate]

theorem yaml_dynOutcome (env : ClusterEnv) (disc : Discovery) (cache : Cache)
    (ns y kind : String) :
    dynOutcome env (CreateOrUpdateResourceYAML env disc cache ns y kind).1
      (CreateOrUpdateResourceYAML env disc cache ns y kind).2.2 := by
  cases hy : env.yamlToJSON y with
  | error e => left; simp [CreateOrUpdateResourceYAML, hy]
  | ok jsonData =>
    cases hj : env.parseJSON jsonData with
    | error e => left; simp [CreateOrUpdateResourceYAML, hy, hj]
    | ok obj =>
      by_cases hk : (if kind = "" then getKind obj else kind) = ""
      · left; simp [CreateOrUpdateResourceYAML, hy, hj, hk]
      · rcases hg : getCachedGVR disc cache (if kind = "" then getKind obj else kind)
          with ⟨r, cache1, n⟩
        cases r with
        | error e =>
          left
          simp [CreateOrUpdateResourceYAML, hy, hj, hk, hg]
        | ok gvr =>
          by_cases hname : getName (if ns = "" then obj else setNamespace obj ns) = ""
          · left
            simp [CreateOrUpdateResourceYAML, hy, hj, hk, hg, hname,
              Action.isDyn, Action.isPatch, Action.isCreate]
          · rw [yaml_eq_of_reached env disc cache ns y kind jsonData obj gvr cache1 n
              hy hj hk hg hname]
            exact patchOrCreate_dynOutcome env gvr _ _ jsonData _ cache1 []
              (by simp)

/-- C1: for every manifest input to createOrUpdate (both the JSON and the
YAML variants) and every environment, the dynamic calls the operation
issues obey the patch-first protocol: whenever any dynamic call is
issued, a merge patch of the object by name is the first one; a create is
attempted if and only if that patch fails with a not-found error; any
other patch error is propagated as the call's result without a create;
and for an object that does not yet exist (patch reports not-found) the
call performs exactly one create and no successful patch. -/
theorem createOrUpdate_patchFirst :
    (∀ (env : ClusterEnv) (disc : Discovery) (cache : Cache) (ns m kind : String),
      dynOutcome env (CreateOrUpdateResourceJSON env disc cache ns m kind).1
        (CreateOrUpdateResourceJSON env disc cache ns m kind).2.2) ∧
    (∀ (env : ClusterEnv) (disc : Discovery) (cache : Cache) (ns y kind : String),
      dynOutcome env (CreateOrUpdateResourceYAML env disc cache ns y kind).1
        (CreateOrUpdateResourceYAML env disc cache ns y kind).2.2) :=
  ⟨json_dynOutcome, yaml_dynOutcome⟩

/-- C1 witness: against a cluster where the pod does not yet exist, the
JSON variant issues the merge patch first, sees not-found, and issues
exactly one create: the protocol lands in the patch-then-create case. -/
theorem createOrUpdate_patchFirst_witness :
    dynOutcome envCreateOnly
      (CreateOrUpdateResourceJSON envCreateOnly discPod cacheEmpty "default" "manif" "Pod").1
      (CreateOrUpdateResourceJSON envCreateOnly discPod cacheEmpty "default" "manif" "Pod").2.2 :=
  createOrUpdate_patchFirst.1 envCreateOnly discPod cacheEmpty "default" "manif" "Pod"

theorem wrapPC_trace (c : Cache) (tr0 : List Action) (p : Except KErr Doc × List Action) :
    (wrapPC c tr0 p).2.2 = tr0 ++ p.2 := by
  rcases p with ⟨r, tr⟩
  cases r <;> rfl

theorem patchOrCreate_no_nsCreate (env : ClusterEnv) (gvr : GVR) (ns name body : String)
    (obj : Doc) :
    ((patchOrCreate env gvr ns name body obj).2).any Action.isNsCreate = false := by
  unfold patchOrCreate
  cases hp : env.patch gvr ns name .merge body with
  | ok d => simp [Action.isNsCreate]
  | error e =>
    cases e with
    | notFound =>
      cases hc : env.create gvr ns obj <;> simp [Action.isNsCreate]
    | other m => simp [Action.isNsCreate]

theorem yaml_no_nsCreate (env : ClusterEnv) (disc : Discovery) (cache : Cache)
    (ns y kind : String) :
    (CreateOrUpdateResourceYAML env disc cache ns y kind).2.2.any Action.isNsCreate = false := by
  cases hy : env.yamlToJSON y with
  | error e => simp [CreateOrUpdateResourceYAML, hy]
  | ok jsonData =>
    cases hj : env.parseJSON jsonData with
    | error e => simp [CreateOrUpdateResourceYAML, hy, hj]
    | ok obj =>
      by_cases hk : (if kind = "" then getKind obj else kind) = ""
      · simp [CreateOrUpdateResourceYAML, hy, hj, hk]
      · rcases hg : getCachedGVR disc cache (if kind = "" then getKind obj else kind)
          with ⟨r, cache1, n⟩
        cases r with
        | error e => simp [CreateOrUpdateResourceYAML, hy, hj, hk, hg]
        | ok gvr =>
          by_cases hname : getName (if ns = "" then obj else setNamespace obj ns) = ""
          · simp [CreateOrUpdateResourceYAML, hy, hj, hk, hg, hname]
          · rw [yaml_eq_of_reached env disc cache ns y kind jsonData obj gvr cache1 n
              hy hj hk hg hname]
            rw [wrapPC_trace]
            simp [patchOrCreate_no_nsCreate]

/-- C6: the JSON-input variant of createOrUpdate checks that the target
namespace exists before any dynamic patch/create call (whenever a dynamic
call appears in the trace, the namespace Get is the very first action),
creates the namespace exactly when that check fails with not-found, and
treats any other failure of the check — or a failure of the transparent
creation — as fatal: the call errors and no patch or create is issued.
The YAML-input variant never creates a namespace. -/
theorem createOrUpdate_namespace_ensure :
    (∀ (env : ClusterEnv) (disc : Discovery) (cache : Cache) (ns m kind : String),
      ((CreateOrUpdateResourceJSON env disc cache ns m kind).2.2.any Action.isDyn = true →
        (CreateOrUpdateResourceJSON env disc cache ns m kind).2.2.head? =
          some (.nsGet ns)) ∧
      ((CreateOrUpdateResourceJSON env disc cache ns m kind).2.2.any Action.isNsCreate = true ↔
        ((CreateOrUpdateResourceJSON env disc cache ns m kind).2.2 ≠ [] ∧
          env.nsGet ns = .error .notFound)) ∧
      (∀ e, env.nsGet ns = .error (.other e) →
        (CreateOrUpdateResourceJSON env disc cache ns m kind).2.2.any Action.isDyn = false ∧
        ((CreateOrUpdateResourceJSON env disc cache ns m kind).2.2 ≠ [] →
          (CreateOrUpdateResourceJSON env disc cache ns m kind).1 =
            .error (.nsEnsure (.other e)))) ∧
      (∀ e, env.nsGet ns = .error .notFound → env.nsCreate ns = .error e →
        (CreateOrUpdateResourceJSON env disc cache ns m kind).2.2.any Action.isDyn = false ∧
        ((CreateOrUpdateResourceJSON env disc cache ns m kind).2.2 ≠ [] →
          (CreateOrUpdateResourceJSON env disc cache ns m kind).1 =
            .error (.nsEnsure e)))) ∧
    (∀ (env : ClusterEnv) (disc : Discovery) (cache : Cache) (ns y kind : String),
      (CreateOrUpdateResourceYAML env disc cache ns y kind).2.2.any Action.isNsCreate = false) := by
  refine ⟨?_, yaml_no_nsCreate⟩
  intro env disc cache ns m kind
  cases hp : env.parseJSON m with
  | error e => simp [CreateOrUpdateResourceJSON, hp]
  | ok obj =>
    rcases hg : getCachedGVR disc cache kind with ⟨r, cache1, n⟩
    cases r with
    | error e => simp [CreateOrUpdateResourceJSON, hp, hg]
    | ok gvr =>
      cases hns : env.nsGet ns with
      | ok u =>
        cases u
        by_cases hname : getName (setNamespace obj ns) = ""
        · simp [CreateOrUpdateResourceJSON, hp, hg, hns, hname,
            Action.isDyn, Action.isPatch, Action.isCreate, Action.isNsCreate]
        · rw [json_eq_of_reached env disc cache ns m kind obj gvr cache1 n hp hg hns hname]
          rw [wrapPC_trace]
          refine ⟨?_, ?_, ?_, ?_⟩
          · intro _
            simp
          · simp [hns, patchOrCreate_no_nsCreate, Action.isNsCreate]
          · intro e he
            exact absurd he (by simp)
          · intro e he
            exact absurd he (by simp)
      | error e0 =>
        cases e0 with
        | notFound =>
          cases hnc : env.nsCreate ns with
          | ok u =>
            cases u
            by_cases hname : getName (setNamespace obj ns) = ""
            · simp [CreateOrUpdateResourceJSON, hp, hg, hns, hnc, hname,
                Action.isDyn, Action.isPatch, Action.isCreate, Action.isNsCreate]
            · rw [json_eq_of_reached_nsCreated env disc cache ns m kind obj gvr cache1 n
                hp hg hns hnc hname]
              rw [wrapPC_trace]
              refine ⟨?_, ?_, ?_, ?_⟩
              · intro _
                simp
              · simp [hns, Action.isNsCreate]
              · intro e he
                exact absurd he (by simp)
              · intro e he hc
                exact absurd hc (by simp)
          | error e2 =>
            rw [json_nsCreate_fail env disc cache ns m kind obj gvr cache1 n hp hg hns e2 hnc]
            refine ⟨?_, ?_, ?_, ?_⟩
            · simp [Action.isDyn, Action.isPatch, Action.isCreate]
            · simp [hns, Action.isNsCreate]
            · intro e he
              exact absurd he (by simp)
            · intro e he hc
              simp only [Except.error.injEq] at hc
              subst hc
              simp [Action.isDyn, Action.isPatch, Action.isCreate]
        | other m2 =>
          rw [json_nsGet_other env disc cache ns m kind obj gvr cache1 n hp hg m2 hns]
          refine ⟨?_, ?_, ?_, ?_⟩
          · simp [Action.isDyn, Action.isPatch, Action.isCreate]
          · simp [hns, Action.isNsCreate]
          · intro e he
            simp only [Except.error.injEq, KErr.other.injEq] at he
            subst he
            simp [Action.isDyn, Action.isPatch, Action.isCreate]
          · intro e he
            exact absurd he (by simp)

/-- C6 witness: with an existing namespace and an absent object, the JSON
variant's trace begins with the namespace Get and contains no namespace
Create, and the YAML variant's trace contains no namespace Create. -/
theorem createOrUpdate_namespace_ensure_witness :
    ((CreateOrUpdateResourceJSON envCreateOnly discPod cacheEmpty "default" "manif" "Pod").2.2.any
        Action.isDyn = true →
      (CreateOrUpdateResourceJSON envCreateOnly discPod cacheEmpty
          "default" "manif" "Pod").2.2.head? = some (.nsGet "default")) ∧
    (CreateOrUpdateResourceYAML envCreateOnly discPod cacheEmpty
        "default" "manif" "Pod").2.2.any Action.isNsCreate = false :=
  ⟨(createOrUpdate_namespace_ensure.1 envCreateOnly discPod cacheEmpty "default" "manif" "Pod").1,
   createOrUpdate_namespace_ensure.2 envCreateOnly discPod cacheEmpty "default" "manif" "Pod"⟩

theorem patchOrCreate_actions (env : ClusterEnv) (gvr : GVR) (nsv nm body : String)
    (obj : Doc) :
    ∀ a ∈ (patchOrCreate env gvr nsv nm body obj).2,
      a = .patch gvr nsv nm .merge body ∨ a = .create gvr nsv obj := by
  intro a ha
  unfold patchOrCreate at ha
  cases hp : env.patch gvr nsv nm .merge body with
  | ok d =>
    rw [hp] at ha
    simp at ha
    exact Or.inl ha
  | error e =>
    cases e with
    | notFound =>
      rw [hp] at ha
      cases hc : env.create gvr nsv obj with
      | ok d =>
        rw [hc] at ha
        simpa using ha
      | error e' =>
        rw [hc] at ha
        simpa using ha
    | other m =>
      rw [hp] at ha
      simp at ha
      exact Or.inl ha

theorem reached_actions_ns (env : ClusterEnv) (gvr : GVR) (obj : Doc) (ns body : String)
    (hns0 : ns ≠ "") (hname : getName (setNamespace obj ns) ≠ "") :
    ∀ a ∈ (patchOrCreate env gvr (getNamespace (setNamespace obj ns))
        (getName (setNamespace obj ns)) body (setNamespace obj ns)).2,
      a.targetNs = ns ∧ ∀ g n o, a = .create g n o → getNamespace o = ns := by
  intro a ha
  have hnseq := getNamespace_setNamespace_of_ne obj ns hns0 hname
  rcases patchOrCreate_actions env gvr _ _ body _ a ha with h | h
  · subst h
    refine ⟨by simp [Action.targetNs, hnseq], ?_⟩
    intro g n o h
    exact Action.noConfusion h
  · subst h
    refine ⟨by simp [Action.targetNs, hnseq], ?_⟩
    intro g n o h
    injection h with h1 h2 h3
    subst h3
    exact hnseq

/-- C5: for every createOrUpdate call (either variant) with a non-empty
namespace argument, every cluster action issued by the call targets that
namespace — the argument overrides any namespace embedded in the
manifest — and any created object's document carries
`metadata.namespace` equal to the argument. -/
theorem createOrUpdate_ns_override :
    (∀ (env : ClusterEnv) (disc : Discovery) (cache : Cache) (ns m kind : String), ns ≠ "" →
      ∀ a ∈ (CreateOrUpdateResourceJSON env disc cache ns m kind).2.2,
        a.targetNs = ns ∧ ∀ g n o, a = .create g n o → getNamespace o = ns) ∧
    (∀ (env : ClusterEnv) (disc : Discovery) (cache : Cache) (ns y kind : String), ns ≠ "" →
      ∀ a ∈ (CreateOrUpdateResourceYAML env disc cache ns y kind).2.2,
        a.targetNs = ns ∧ ∀ g n o, a = .create g n o → getNamespace o = ns) := by
  constructor
  · intro env disc cache ns m kind hns0
    cases hp : env.parseJSON m with
    | error e => simp [CreateOrUpdateResourceJSON, hp]
    | ok obj =>
      rcases hg : getCachedGVR disc cache kind with ⟨r, cache1, n⟩
      cases r with
      | error e => simp [CreateOrUpdateResourceJSON, hp, hg]
      | ok gvr =>
        cases hns : env.nsGet ns with
        | ok u =>
          cases u
          by_cases hname : getName (setNamespace obj ns) = ""
          · intro a ha
            simp [CreateOrUpdateResourceJSON, hp, hg, hns, hname] at ha
            subst ha
            exact ⟨rfl, fun g n o h => Action.noConfusion h⟩
          · rw [json_eq_of_reached env disc cache ns m kind obj gvr cache1 n hp hg hns hname,
              wrapPC_trace]
            intro a ha
            rcases List.mem_append.mp ha with h | h
            · simp at h
              subst h
              exact ⟨rfl, fun g n o h => Action.noConfusion h⟩
            · exact reached_actions_ns env gvr obj ns m hns0 hname a h
        | error e0 =>
          cases e0 with
          | notFound =>
            cases hnc : env.nsCreate ns with
            | ok u =>
              cases u
              by_cases hname : getName (setNamespace obj ns) = ""
              · intro a ha
                simp [CreateOrUpdateResourceJSON, hp, hg, hns, hnc, hname] at ha
                rcases ha with h | h <;> subst h <;>
                  exact ⟨rfl, fun g n o h => Action.noConfusion h⟩
              · rw [json_eq_of_reached_nsCreated env disc cache ns m kind obj gvr cache1 n
                  hp hg hns hnc hname, wrapPC_trace]
                intro a ha
                rcases List.mem_append.mp ha with h | h
                · simp at h
                  rcases h with h | h <;> subst h <;>
                    exact ⟨rfl, fun g n o h => Action.noConfusion h⟩
                · exact reached_actions_ns env gvr obj ns m hns0 hname a h
            | error e2 =>
              rw [json_nsCreate_fail env disc cache ns m kind obj gvr cache1 n hp hg hns e2 hnc]
              intro a ha
              simp at ha
              rcases ha with h | h <;> subst h <;>
                exact ⟨rfl, fun g n o h => Action.noConfusion h⟩
          | other m2 =>
            rw [json_nsGet_other env disc cache ns m kind obj gvr cache1 n hp hg m2 hns]
            intro a ha
            simp at ha
            subst ha
            exact ⟨rfl, fun g n o h => Action.noConfusion h⟩
  · intro env disc cache ns y kind hns0
    cases hy : env.yamlToJSON y with
    | error e => simp [CreateOrUpdateResourceYAML, hy]
    | ok jsonData =>
      cases hj : env.parseJSON jsonData with
      | error e => simp [CreateOrUpdateResourceYAML, hy, hj]
      | ok obj =>
        by_cases hk : (if kind = "" then getKind obj else kind) = ""
        · simp [CreateOrUpdateResourceYAML, hy, hj, hk]
        · rcases hg : getCachedGVR disc cache (if kind = "" then getKind obj else kind)
            with ⟨r, cache1, n⟩
          cases r with
          | error e => simp [CreateOrUpdateResourceYAML, hy, hj, hk, hg]
          | ok gvr =>
            by_cases hname : getName (if ns = "" then obj else setNamespace obj ns) = ""
            · simp [CreateOrUpdateResourceYAML, hy, hj, hk, hg, hname]
            · rw [yaml_eq_of_reached env disc cache ns y kind jsonData obj gvr cache1 n
                hy hj hk hg hname, wrapPC_trace]
              intro a ha
              rw [List.nil_append] at ha
              rw [if_neg hns0] at ha
              rw [if_neg hns0] at hname
              exact reached_actions_ns env gvr obj ns jsonData hns0 hname a ha

/-- C5 witness: the YAML variant on a manifest with no namespace and
argument "default" issues a create whose target namespace and stored
`metadata.namespace` are both "default". -/
theorem createOrUpdate_ns_override_witness :
    (Action.create gvrPod "default" (setNamespace docPod "default")).targetNs = "default" ∧
      (∀ g n o, Action.create gvrPod "default" (setNamespace docPod "default") =
        .create g n o → getNamespace o = "default") := by
  have htr : (CreateOrUpdateResourceYAML envCreateOnly discPod cacheEmpty
      "default" "manifest" "").2.2 =
      [Action.patch gvrPod "default" "my-pod" .merge "manifest",
       Action.create gvrPod "default" (setNamespace docPod "default")] := by rfl
  refine createOrUpdate_ns_override.2 envCreateOnly discPod cacheEmpty
    "default" "manifest" "" (by decide) _ ?_
  rw [htr]
  exact List.mem_cons_of_mem _ (List.mem_cons_self _ _)

/-- C10: CreateOrUpdateResourceJSON overwrites the manifest's namespace
with the namespace argument even when the argument is empty, and with an
empty argument the namespace-existence lookup is a Get of the namespace
named "": whenever that lookup fails with an error that is not not-found,
the call returns the namespace-ensure error after issuing only that
lookup — no patch and no create are ever attempted, so cluster-scoped
resources cannot be applied through the JSON variant. When the lookup
succeeds, the dynamic calls target the empty namespace with the
namespace-stripped object, regardless of the manifest's own namespace. -/
theorem json_empty_namespace :
    (∀ (env : ClusterEnv) (disc : Discovery) (cache : Cache) (m kind : String)
      (obj : Doc) (gvr : GVR) (cache1 : Cache) (n : Nat) (e : String),
      env.parseJSON m = .ok obj →
      getCachedGVR disc cache kind = (.ok gvr, cache1, n) →
      env.nsGet "" = .error (.other e) →
      CreateOrUpdateResourceJSON env disc cache "" m kind =
        (.error (.nsEnsure (.other e)), cache1, [.nsGet ""])) ∧
    (∀ (env : ClusterEnv) (disc : Discovery) (cache : Cache) (m kind : String)
      (obj : Doc) (gvr : GVR) (cache1 : Cache) (n : Nat),
      env.parseJSON m = .ok obj →
      getCachedGVR disc cache kind = (.ok gvr, cache1, n) →
      env.nsGet "" = .ok () →
      getName obj ≠ "" →
      (CreateOrUpdateResourceJSON env disc cache "" m kind).2.2 =
        .nsGet "" ::
          (patchOrCreate env gvr "" (getName obj) m (setNamespace obj "")).2) := by
  constructor
  · intro env disc cache m kind obj gvr cache1 n e hp hg hns
    exact json_nsGet_other env disc cache "" m kind obj gvr cache1 n hp hg e hns
  · intro env disc cache m kind obj gvr cache1 n hp hg hns hname0
    have hname : getName (setNamespace obj "") ≠ "" := by
      rw [getName_setNamespace]
      exact hname0
    rw [json_eq_of_reached env disc cache "" m kind obj gvr cache1 n hp hg hns hname,
      wrapPC_trace]
    rw [getNamespace_setNamespace_empty, getName_setNamespace]
    rfl

/-- C10 witness: with an empty namespace argument and a namespace lookup
that fails with a non-not-found error, the JSON variant returns the
namespace-ensure error having issued only the namespace Get of "". -/
theorem json_empty_namespace_witness :
    CreateOrUpdateResourceJSON envNsBroken discPod cacheEmpty "" "manif" "Pod" =
      (.error (.nsEnsure (.other "name may not be empty")), cachePod, [.nsGet ""]) :=
  json_empty_namespace.1 envNsBroken discPod cacheEmpty "manif" "Pod" docPod gvrPod cachePod 1
    "name may not be empty" (by rfl) (by rfl) (by rfl)

/-- C7: whenever the patched object the cluster returns from a
rolloutRestart lacks a `spec.template` substructure, the call fails with
the "does not support rollout restart" error — but the strategic patch
stamping the restart-timestamp annotation has already been sent: it is in
the trace, so the error does not imply the cluster state was left
unchanged (validation happens after mutation). -/
theorem rolloutRestart_validates_after_patch
    (env : ClusterEnv) (disc : Discovery) (cache : Cache)
    (now kind name ns : String) (gvr : GVR) (cache1 : Cache) (n : Nat) (content : Doc)
    (hg : getCachedGVR disc cache kind = (.ok gvr, cache1, n))
    (hpatch : env.patch gvr ns name .strategic (restartPatchBody now) = .ok content)
    (hnt : nestedMap content ["spec", "template"] = none) :
    RolloutRestart env disc cache now kind name ns =
      (.error (.noTemplate kind), cache1,
        [.patch gvr ns name .strategic (restartPatchBody now)]) := by
  unfold RolloutRestart
  simp only [hg, hpatch, hnt]

/-- C7 witness: a successful strategic patch returning a document with no
`spec.template` makes the call fail while its trace holds the already
sent patch. -/
theorem rolloutRestart_validates_after_patch_witness :
    RolloutRestart envRollout discPod cacheEmpty "T0" "Pod" "nginx" "default" =
      (.error (.noTemplate "Pod"), cachePod,
        [.patch gvrPod "default" "nginx" .strategic (restartPatchBody "T0")]) :=
  rolloutRestart_validates_after_patch envRollout discPod cacheEmpty "T0" "Pod" "nginx"
    "default" gvrPod cachePod 1 docNoTemplate (by rfl) (by rfl) (by rfl)

theorem concatChunks_contains {l : List String} {s : String} (h : s ∈ l) :
    strContains (concatChunks l) s := by
  induction l with
  | nil => cases h
  | cons x xs ih =>
    cases h with
    | head => exact ⟨"", concatChunks xs, by simp [concatChunks]⟩
    | tail _ hx =>
      obtain ⟨p, q, hpq⟩ := ih hx
      exact ⟨x ++ p, q, by simp [concatChunks, hpq, String.append_assoc]⟩

/-- C8: for every getLogs call with no container name on a pod declaring
more than one container, where at least one container's log stream
succeeds and at least one fails, the call as a whole succeeds; the result
contains the successful container's content under its labeled separator
header, contains the inline error marker for each failed container, and
every declared container's chunk appears — streaming continued over the
remaining containers after the failure. -/
theorem getPodsLogs_partial_failure
    (env : LogEnv) (ns pod : String) (cs : List String) (a b sa eb : String)
    (hpod : env.getPod ns pod = .ok cs)
    (hlen : 1 < cs.length)
    (ha : a ∈ cs) (hsa : env.stream ns pod a = .ok (.ok sa))
    (hb : b ∈ cs) (heb : env.stream ns pod b = .error eb) :
    GetPodsLogs env ns "" pod =
        .ok (concatChunks (cs.map (containerChunk env ns pod))) ∧
      strContains (concatChunks (cs.map (containerChunk env ns pod)))
        ("\n--- Logs for container " ++ a ++ " ---\n" ++ sa) ∧
      strContains (concatChunks (cs.map (containerChunk env ns pod)))
        ("\n--- Error getting logs for container " ++ b ++ ": " ++ eb ++ " ---\n") ∧
      ∀ c ∈ cs, strContains (concatChunks (cs.map (containerChunk env ns pod)))
        (containerChunk env ns pod c) := by
  have hne : ¬cs.length = 1 := by omega
  refine ⟨?_, ?_, ?_, ?_⟩
  · simp [GetPodsLogs, hpod, hne]
  · have h := concatChunks_contains (List.mem_map_of_mem (containerChunk env ns pod) ha)
    rw [containerChunk, hsa] at h
    exact h
  · have h := concatChunks_contains (List.mem_map_of_mem (containerChunk env ns pod) hb)
    rw [containerChunk, heb] at h
    exact h
  · intro c hc
    exact concatChunks_contains (List.mem_map_of_mem (containerChunk env ns pod) hc)

/-- C8 witness: a pod with containers app and sidecar where app streams
and sidecar fails — the aggregate call succeeds, app's content appears
under its header and sidecar's inline error marker appears. -/
theorem getPodsLogs_partial_failure_witness :
    GetPodsLogs envLogs "default" "" "mypod" =
        .ok (concatChunks (["app", "sidecar"].map (containerChunk envLogs "default" "mypod"))) ∧
      strContains
        (concatChunks (["app", "sidecar"].map (containerChunk envLogs "default" "mypod")))
        ("\n--- Logs for container " ++ "app" ++ " ---\n" ++ "alpha-logs") ∧
      strContains
        (concatChunks (["app", "sidecar"].map (containerChunk envLogs "default" "mypod")))
        ("\n--- Error getting logs for container " ++ "sidecar" ++ ": " ++
          "connection refused" ++ " ---\n") ∧
      ∀ c ∈ ["app", "sidecar"],
        strContains
          (concatChunks (["app", "sidecar"].map (containerChunk envLogs "default" "mypod")))
          (containerChunk envLogs "default" "mypod" c) :=
  getPodsLogs_partial_failure envLogs "default" "mypod" ["app", "sidecar"]
    "app" "sidecar" "alpha-logs" "connection refused"
    (by rfl) (by decide) (by simp) (by rfl) (by simp) (by rfl)

/-- C4: connection resolution tries exactly four sources in fixed order,
first match wins. (1) Inline kubeconfig content, when set, decides the
outcome alone, failing if it is malformed at either conversion step;
else (2) an explicit server URL selects the URL-plus-bearer-token source,
which fails with the configuration error whenever the token is empty,
fails when a CA-certificate file path is set (and no inline CA content)
but unreadable, and otherwise yields exactly the host/token/insecure/CA
configuration; else (3) when the service-account token file exists, the
in-cluster config decides the outcome; else (4) the kubeconfig file path
is taken from the explicit argument, else the KUBECONFIG variable, else
the per-user default path, and handed to the from-flags builder. -/
theorem buildKubernetesConfig_order (env : ConfigEnv) (p : String) :
    (env.kubeconfigData ≠ "" →
      (∀ m, env.clientcmdLoad env.kubeconfigData = .error m →
        BuildKubernetesConfig env p = .error (.loadKubeconfigData m)) ∧
      (∀ o c, env.clientcmdLoad env.kubeconfigData = .ok o →
        env.clientConfig o = .ok c → BuildKubernetesConfig env p = .ok c) ∧
      (∀ o m, env.clientcmdLoad env.kubeconfigData = .ok o →
        env.clientConfig o = .error m →
        BuildKubernetesConfig env p = .error (.buildFromData m))) ∧
    (env.kubeconfigData = "" → env.server ≠ "" → env.token = "" →
      BuildKubernetesConfig env p = .error .tokenRequired) ∧
    (env.kubeconfigData = "" → env.server ≠ "" → env.token ≠ "" →
      (env.caCert ≠ "" →
        BuildKubernetesConfig env p =
          .ok { host := env.server, bearerToken := env.token,
                insecure := env.insecureVar = "true", caData := env.caCert }) ∧
      (env.caCert = "" → env.caCertPath ≠ "" →
        (∀ m, env.readFile env.caCertPath = .error m →
          BuildKubernetesConfig env p = .error (.caCertRead env.caCertPath m)) ∧
        (∀ data, env.readFile env.caCertPath = .ok data →
          BuildKubernetesConfig env p =
            .ok { host := env.server, bearerToken := env.token,
                  insecure := env.insecureVar = "true", caData := data })) ∧
      (env.caCert = "" → env.caCertPath = "" →
        BuildKubernetesConfig env p =
          .ok { host := env.server, bearerToken := env.token,
                insecure := env.insecureVar = "true" })) ∧
    (env.kubeconfigData = "" → env.server = "" → env.saTokenStatOK = true →
      BuildKubernetesConfig env p =
        (match env.inCluster with
         | .ok c => .ok c
         | .error m => .error (.inClusterFailed m))) ∧
    (env.kubeconfigData = "" → env.server = "" → env.saTokenStatOK = false →
      BuildKubernetesConfig env p =
        (match env.buildFromFlags
            (if p ≠ "" then p
             else if env.kubeconfigEnv ≠ "" then env.kubeconfigEnv
             else if env.home ≠ "" then env.home ++ "/.kube/config" else "") with
         | .ok c => .ok c
         | .error m => .error (.buildConfig m))) := by
  refine ⟨?_, ?_, ?_, ?_, ?_⟩
  · intro hd
    refine ⟨?_, ?_, ?_⟩
    · intro m hm
      simp [BuildKubernetesConfig, hd, hm]
    · intro o c ho hc
      simp [BuildKubernetesConfig, hd, ho, hc]
    · intro o m ho hm
      simp [BuildKubernetesConfig, hd, ho, hm]
  · intro hd hs ht
    simp [BuildKubernetesConfig, hd, hs, ht]
  · intro hd hs ht
    refine ⟨?_, ?_, ?_⟩
    · intro hca
      simp [BuildKubernetesConfig, hd, hs, ht, hca]
    · intro hca hcp
      refine ⟨?_, ?_⟩
      · intro m hm
        simp [BuildKubernetesConfig, hd, hs, ht, hca, hcp, hm]
      · intro data hdata
        simp [BuildKubernetesConfig, hd, hs, ht, hca, hcp, hdata]
    · intro hca hcp
      simp [BuildKubernetesConfig, hd, hs, ht, hca, hcp]
  · intro hd hs hsa
    cases hic : env.inCluster <;>
      simp [BuildKubernetesConfig, hd, hs, hsa, hic]
  · intro hd hs hsa
    cases hbf : env.buildFromFlags
        (if p ≠ "" then p
         else if env.kubeconfigEnv ≠ "" then env.kubeconfigEnv
         else if env.home ≠ "" then env.home ++ "/.kube/config" else "") <;>
      simp only [ne_eq, ite_not] at hbf <;>
      simp [BuildKubernetesConfig, hd, hs, hsa, hbf]

/-- C4 witness: with no inline kubeconfig content, a server URL set and an
empty token, resolution fails with the token-required configuration
error. -/
theorem buildKubernetesConfig_order_witness :
    BuildKubernetesConfig envServerToken "" = .error .tokenRequired :=
  (buildKubernetesConfig_order envServerToken "").2.1 rfl (by decide) rfl

end K8s
